import Mathlib

/-!
Shallow embedding of the kitex client option-composition engine
(`client/option.go`): the configuration state, the trace log, the option
fragments and their application semantics, followed by theorems about the
composition/validation/audit contracts.

Go panics are modelled as `Except.error` carrying the panic message together
with the configuration state and the parent trace as they stand at the moment
of the panic (a Go panic unwinds, leaving mutations already made to the shared
`*Options` in place).
-/

set_option autoImplicit false

namespace Kitex

/-- Modelled from the spec: the transport-protocol identifier is an enum
(`transport.Protocol`, an integer) whose declaration lives outside the given
source.  Known values are `PurePayload`, `TTHeader`, `Framed`, `HTTP`, `GRPC`;
any other integer is unknown. -/
abbrev Protocol := Nat

def Protocol.purePayload : Protocol := 0
def Protocol.ttheader : Protocol := 1
def Protocol.framed : Protocol := 2
def Protocol.http : Protocol := 4
def Protocol.grpc : Protocol := 8

/-- Modelled from the spec: `transport.Unknown`, the name an unrecognized
protocol identifier renders as. -/
def Protocol.unknownName : String := "unknown"

/-- Modelled from the spec: `Protocol.String()` — the printable name of a
transport-protocol identifier; unrecognized values render as `unknown`. -/
def Protocol.name (tp : Protocol) : String :=
  if tp = Protocol.purePayload then "PurePayload"
  else if tp = Protocol.ttheader then "TTHeader"
  else if tp = Protocol.framed then "Framed"
  else if tp = Protocol.http then "HTTP"
  else if tp = Protocol.grpc then "GRPC"
  else Protocol.unknownName

/-- A trace-log entry: either a leaf description or a nested sub-sequence
tagged with a suite's identity (the anonymous `struct{Suite string; Options
utils.Slice}` pushed by `WithSuite`). -/
inductive Entry where
  | leaf (s : String)
  | nested (suite : String) (options : List Entry)
  deriving Repr

/-- Modelled from the spec: the trace sink `utils.Slice` is an ordered,
append-only sequence; `Push` appends one entry at the end. -/
abbrev Trace := List Entry

/-- A discovery instance, as built by `discovery.NewInstance(network, address,
weight, tags)` (tags are always `nil` here and omitted). -/
structure Instance where
  network : String
  address : String
  weight : Int
  deriving Repr, DecidableEq

/-- Modelled from the spec: `discovery.DefaultWeight`, the weight given to
instances built from an explicit address list. -/
def defaultWeight : Int := 10

/-- A discovery result, as returned by a resolver lookup
(`discovery.Result`). -/
structure DiscResult where
  cacheable : Bool
  cacheKey : String
  instances : List Instance
  deriving Repr, DecidableEq

/-- A resolver collaborator handle (`discovery.Resolver` /
`discovery.SynthesizedResolver`): a lookup function from the key argument to a
result, plus a name.  (The Go `ResolveFunc` also takes a `context.Context` it
never inspects, and returns an always-`nil` error; both are omitted.  The Go
`NameFunc` closure reads `o.Targets` at call time; here it stores the targets
string captured at installation.) -/
structure ResolverModel where
  resolveFunc : String → DiscResult
  name : String

/-- Connection-pool collaborator handles installed by the fragments:
`nphttp2.NewConnPool()` or `netpollmux.NewMuxConnPool(connNum)`. -/
inductive ConnPool where
  | nphttp2Pool
  | muxPool (connNum : Int)
  deriving Repr, DecidableEq

/-- Client transport-handler-factory collaborator handles:
`nphttp2.NewCliTransHandlerFactory()` or
`netpollmux.NewCliTransHandlerFactory()`. -/
inductive HandlerFactory where
  | nphttp2CliFactory
  | netpollmuxCliFactory
  deriving Repr, DecidableEq

/-- An idle-connection-pool configuration (`connpool.IdleConfig`), opaque to
this core. -/
abbrev IdleConfig := Nat

/-- Modelled from the spec: `connpool.CheckPoolConfig` (outside the given
source) normalizes an idle config into the opaque pool-configuration handle
stored in the state; the handle itself is opaque to this core. -/
def checkPoolConfig (cfg : IdleConfig) : Option IdleConfig := some cfg

/-- A failure retry policy value (`retry.FailurePolicy`), opaque-but-printable
data owned by the excluded retry subsystem. -/
abbrev FailurePolicy := Nat

/-- A backup request policy value (`retry.BackupPolicy`), opaque-but-printable
data owned by the excluded retry subsystem. -/
abbrev BackupPolicy := Nat

/-- Modelled from the spec: `retry.Type` — the tag of the retry-policy oneof
(`retry.FailureType` / `retry.BackupType`), declared outside the given
source. -/
inductive RetryType where
  | failure
  | backup
  deriving Repr, DecidableEq

/-- The retry policy record (`retry.Policy`, declared outside the given
source): the two variant payload pointers, the enabled flag and the variant
tag.  The Go zero value `retry.Policy{}` has both pointers nil, `Enable`
false and `Type` equal to `FailureType` (the zero enum value). -/
structure RetryPolicy where
  failurePolicy : Option FailurePolicy := none
  backupPolicy : Option BackupPolicy := none
  enable : Bool := false
  type : RetryType := RetryType.failure
  deriving Repr, DecidableEq

/-- The mutable RPC configuration behind `rpcinfo.AsMutableRPCConfig
(o.Configs)`: transport protocol, RPC timeout and connect timeout (durations
in nanoseconds). -/
structure RPCConfig where
  transportProtocol : Protocol := Protocol.purePayload
  rpcTimeout : Int := 0
  connectTimeout : Int := 0
  deriving Repr, DecidableEq

/-- Modelled from the spec: the lock-set bit positions
`rpcinfo.BitRPCTimeout` / `rpcinfo.BitConnectTimeout` (declared outside the
given source), one bit per protected field. -/
def bitRPCTimeout : Nat := 1

/-- Modelled from the spec: see `bitRPCTimeout`. -/
def bitConnectTimeout : Nat := 2

/-- The lock set `o.Locks`: a bitmask of explicitly pinned config fields plus
the set of explicitly locked tag keys. -/
structure Locks where
  bits : Nat := 0
  tags : List String := []
  deriving Repr, DecidableEq

/-- The remote options aggregate `o.RemoteOpt` (only the fields this file
touches). -/
structure RemoteOpt where
  connPool : Option ConnPool := none
  cliHandlerFactory : Option HandlerFactory := none
  codec : Option Nat := none
  payloadCodec : Option Nat := none
  enableConnPoolReporter : Bool := false
  deriving Repr, DecidableEq

/-- The configuration state being built (`client.Options`), restricted to the
fields read or written by `client/option.go`.  Opaque collaborator handles
(logger, balancer, codecs, tracers, middleware) are modelled as opaque
tokens. -/
structure Options where
  /-- `o.Once`: whether the once-only guard has already been consumed. -/
  onceUsed : Bool := false
  /-- `o.Svr.ServiceName`. -/
  svrServiceName : String := ""
  /-- `o.Svr.Tags`: a key-unique mapping. -/
  svrTags : List (String × String) := []
  /-- `o.Targets`. -/
  targets : String := ""
  /-- `o.Resolver`. -/
  resolver : Option ResolverModel := none
  /-- `o.HTTPResolver`. -/
  httpResolver : Option Nat := none
  /-- `o.PoolCfg`. -/
  poolCfg : Option IdleConfig := none
  /-- `o.RemoteOpt`. -/
  remoteOpt : RemoteOpt := {}
  /-- `o.Configs`, through its mutable view. -/
  configs : RPCConfig := {}
  /-- `o.Locks`. -/
  locks : Locks := {}
  /-- `o.RetryPolicy`. -/
  retryPolicy : Option RetryPolicy := none
  /-- `o.TracerCtl`: lazily created ordered tracer list. -/
  tracerCtl : Option (List Nat) := none
  /-- `o.StatsLevel`. -/
  statsLevel : Nat := 0
  /-- `o.Logger`. -/
  logger : Option Nat := none
  /-- `o.Balancer`. -/
  balancer : Option Nat := none
  /-- `o.BalancerCacheOpt`. -/
  balancerCacheOpt : Option Nat := none
  /-- `o.MWBs`: middleware builders, by name. -/
  mwbs : List String := []
  /-- `o.IMWBs`: instance middleware builders, by name. -/
  imwbs : List String := []

/-- The network environment: which address strings resolve as TCP addresses
(`net.ResolveTCPAddr`) and which as unix-socket paths (`net.ResolveUnixAddr`).
Address resolution is performed by the Go standard library, outside this core,
so it is a parameter of the semantics. -/
structure Net where
  resolvesTCP : String → Bool
  resolvesUnix : String → Bool

/-- The option fragments defined in `client/option.go`, each carrying its
effective arguments.  Arguments that are opaque collaborator handles are
carried as opaque tokens; arguments only used for their printed form
(middleware function names, suite identity) are carried as the printed
string. -/
inductive Fragment where
  | withTransportProtocol (tp : Protocol)
  | withSuite (label : String) (opts : List Fragment)
  | withMiddleware (name : String)
  | withMiddlewareBuilder (name : String)
  | withInstanceMW (name : String)
  | withDestService (svr : String)
  | withHostPorts (hostports : List String)
  | withResolver (r : ResolverModel)
  | withHTTPResolver (r : Nat)
  | withLongConnection (cfg : IdleConfig)
  | withMuxConnection (connNum : Int)
  | withLogger (logger : Nat)
  | withLoadBalancer (lb : Nat) (opts : List Nat)
  | withRPCTimeout (d : Int)
  | withConnectTimeout (d : Int)
  | withTag (key val : String)
  | withTracer (c : Nat)
  | withStatsLevel (level : Nat)
  | withCodec (c : Nat)
  | withPayloadCodec (c : Nat)
  | withConnReporterEnabled
  | withFailureRetry (p : Option FailurePolicy)
  | withBackupRequest (p : Option BackupPolicy)

/-- A build abort (Go `panic`): the message, plus the configuration state and
the parent trace as they stand when the panic unwinds. -/
abbrev Abort := String × Options × Trace

/-- Assign `key = val` in a key-unique mapping (`map[string]string`
assignment). -/
def setTag (key val : String) : List (String × String) → List (String × String)
  | [] => [(key, val)]
  | (k, v) :: rest => if k = key then (k, val) :: rest else (k, v) :: setTag key val rest

/-- The address-resolution loop of `WithHostPorts`: each entry must resolve as
a TCP address or as a unix-socket path; the first entry that resolves as
neither panics.  On success, one instance per address, in order. -/
def resolveIns (net : Net) : List String → Except String (List Instance)
  | [] => Except.ok []
  | hp :: rest =>
    if net.resolvesTCP hp then
      (resolveIns net rest).map fun ins =>
        ⟨"tcp", hp, defaultWeight⟩ :: ins
    else if net.resolvesUnix hp then
      (resolveIns net rest).map fun ins =>
        ⟨"unix", hp, defaultWeight⟩ :: ins
    else
      Except.error ("WithHostPorts: invalid '" ++ hp ++ "'")

/-- Modelled from the spec: `WithTransHandlerFactory` is a fragment defined in
the client package outside the given source; `WithMuxConnection` delegates to
it.  Per the fragment contract it appends one descriptive trace entry naming
itself and stores the handler-factory collaborator handle. -/
def withTransHandlerFactoryF (f : HandlerFactory) (o : Options) :
    Options × List Entry :=
  ({ o with remoteOpt := { o.remoteOpt with cliHandlerFactory := some f } },
   [Entry.leaf "WithTransHandlerFactory"])

/-- Modelled from the spec: `o.Once.OnceOrPanic()` (declared outside the given
source) — the once-only guard that panics on the second attempt. -/
def oncePanicMsg : String := "the option may only be set once"


mutual

/-- Apply one fragment: run its `F(o *client.Options, di *utils.Slice)` body
from `client/option.go` on the state.  The result carries the state together
with the list of entries the body pushed, in push order, onto the caller's
trace sink (`applyFragment` below appends them to an actual sink); an abort
carries the entries pushed before the panic. -/
def applyFragmentD (net : Net) : Fragment → Options → Except Abort (Options × List Entry)
  | .withTransportProtocol tp, o =>
    if tp.name = Protocol.unknownName then
      Except.error ("WithTransportProtocol: invalid '" ++ tp.name ++ "'", o, [])
    else
      let o := if tp = Protocol.grpc then
          { o with remoteOpt := { o.remoteOpt with
              connPool := some ConnPool.nphttp2Pool,
              cliHandlerFactory := some HandlerFactory.nphttp2CliFactory } }
        else o
      Except.ok ({ o with configs := { o.configs with transportProtocol := tp } },
        [Entry.leaf ("WithTransportProtocol(" ++ tp.name ++ ")")])
  | .withSuite label opts, o =>
    match applyFragmentsD net opts o with
    | Except.error (msg, o', _) => Except.error (msg, o', [])
    | Except.ok (o', nestedOptions) =>
      Except.ok (o', [Entry.nested label nestedOptions])
  | .withMiddleware name, o =>
    Except.ok ({ o with mwbs := o.mwbs ++ [name] },
      [Entry.leaf ("WithMiddleware(" ++ name ++ ")")])
  | .withMiddlewareBuilder name, o =>
    Except.ok ({ o with mwbs := o.mwbs ++ [name] },
      [Entry.leaf ("WithMiddlewareBuilder(" ++ name ++ ")")])
  | .withInstanceMW name, o =>
    Except.ok ({ o with imwbs := o.imwbs ++ [name] },
      [Entry.leaf ("WithInstanceMW(" ++ name ++ ")")])
  | .withDestService svr, o =>
    if o.onceUsed then
      Except.error (oncePanicMsg, o, [])
    else
      Except.ok ({ o with onceUsed := true, svrServiceName := svr },
        [Entry.leaf ("WithDestService(" ++ svr ++ ")")])
  | .withHostPorts hostports, o =>
    let e := Entry.leaf ("WithHostPorts([" ++ String.intercalate " " hostports ++ "])")
    match resolveIns net hostports with
    | Except.error msg => Except.error (msg, o, [e])
    | Except.ok ins =>
      if ins.length = 0 then
        Except.error ("WithHostPorts() requires at least one argument", o, [e])
      else
        let targets := String.intercalate "," hostports
        Except.ok ({ o with
          targets := targets,
          resolver := some
            { resolveFunc := fun _key =>
                { cacheable := true, cacheKey := "fixed", instances := ins },
              name := targets } }, [e])
  | .withResolver r, o =>
    Except.ok ({ o with resolver := some r },
      [Entry.leaf ("WithResolver(" ++ r.name ++ ")")])
  | .withHTTPResolver r, o =>
    Except.ok ({ o with httpResolver := some r },
      [Entry.leaf ("WithHTTPResolver(" ++ toString r ++ ")")])
  | .withLongConnection cfg, o =>
    let e := Entry.leaf ("WithLongConnection(" ++ toString cfg ++ ")")
    if o.poolCfg = none then
      Except.ok ({ o with poolCfg := checkPoolConfig cfg }, [e])
    else
      Except.ok (o, [e])
  | .withMuxConnection connNum, o =>
    let o := { o with remoteOpt := { o.remoteOpt with
        connPool := some (ConnPool.muxPool connNum) } }
    let (o, d) := withTransHandlerFactoryF HandlerFactory.netpollmuxCliFactory o
    Except.ok ({ o with configs := { o.configs with
      transportProtocol := Protocol.ttheader } },
      Entry.leaf "WithMuxConnection" :: d)
  | .withLogger logger, o =>
    Except.ok ({ o with logger := some logger },
      [Entry.leaf ("WithLogger(" ++ toString logger ++ ")")])
  | .withLoadBalancer lb opts, o =>
    let e := Entry.leaf ("WithLoadBalancer(" ++ toString lb ++ ", " ++ toString opts ++ ")")
    let o := { o with balancer := some lb }
    if opts.length > 0 then
      Except.ok ({ o with balancerCacheOpt := opts.head? }, [e])
    else
      Except.ok (o, [e])
  | .withRPCTimeout d, o =>
    Except.ok ({ o with
        configs := { o.configs with rpcTimeout := d },
        locks := { o.locks with bits := o.locks.bits ||| bitRPCTimeout } },
      [Entry.leaf ("WithRPCTimeout(" ++ toString (d.tdiv 1000000) ++ "ms)")])
  | .withConnectTimeout d, o =>
    Except.ok ({ o with
        configs := { o.configs with connectTimeout := d },
        locks := { o.locks with bits := o.locks.bits ||| bitConnectTimeout } },
      [Entry.leaf ("WithConnectTimeout(" ++ toString (d.tdiv 1000000) ++ "ms)")])
  | .withTag key val, o =>
    Except.ok ({ o with
        svrTags := setTag key val o.svrTags,
        locks := { o.locks with tags :=
          if key ∈ o.locks.tags then o.locks.tags else o.locks.tags ++ [key] } },
      [Entry.leaf ("WithTag(" ++ key ++ "=" ++ val ++ ")")])
  | .withTracer c, o =>
    Except.ok ({ o with tracerCtl := some ((o.tracerCtl.getD []) ++ [c]) },
      [Entry.leaf ("WithTracer(" ++ toString c ++ ")")])
  | .withStatsLevel level, o =>
    Except.ok ({ o with statsLevel := level },
      [Entry.leaf ("WithStatsLevel(" ++ toString level ++ ")")])
  | .withCodec c, o =>
    Except.ok ({ o with remoteOpt := { o.remoteOpt with codec := some c } },
      [Entry.leaf ("WithCodec(" ++ toString c ++ ")")])
  | .withPayloadCodec c, o =>
    Except.ok ({ o with remoteOpt := { o.remoteOpt with payloadCodec := some c } },
      [Entry.leaf ("WithPayloadCodec(" ++ toString c ++ ")")])
  | .withConnReporterEnabled, o =>
    Except.ok ({ o with remoteOpt := { o.remoteOpt with
        enableConnPoolReporter := true } },
      [Entry.leaf "WithConnReporterEnabled()"])
  | .withFailureRetry p, o =>
    match p with
    | none => Except.ok (o, [])
    | some p =>
      let e := Entry.leaf ("WithFailureRetry(" ++ toString p ++ ")")
      let rp := o.retryPolicy.getD {}
      let o := { o with retryPolicy := some rp }
      if rp.backupPolicy ≠ none then
        Except.error
          ("BackupPolicy has been setup, cannot support Failure Retry at same time",
           o, [e])
      else
        Except.ok ({ o with retryPolicy := some { rp with
          failurePolicy := some p, enable := true, type := RetryType.failure } }, [e])
  | .withBackupRequest p, o =>
    match p with
    | none => Except.ok (o, [])
    | some p =>
      let e := Entry.leaf ("WithBackupRequest(" ++ toString p ++ ")")
      let rp := o.retryPolicy.getD {}
      let o := { o with retryPolicy := some rp }
      if rp.failurePolicy ≠ none then
        Except.error
          ("Failure Retry has been setup, cannot support Backup Request at same time",
           o, [e])
      else
        Except.ok ({ o with retryPolicy := some { rp with
          backupPolicy := some p, enable := true, type := RetryType.backup } }, [e])

/-- Apply a list of fragments in order, threading the state and collecting
the pushed entries in order; the first abort terminates the whole pass (this
is the loop of `WithSuite` and of the build driver). -/
def applyFragmentsD (net : Net) : List Fragment → Options → Except Abort (Options × List Entry)
  | [], o => Except.ok (o, [])
  | f :: fs, o =>
    match applyFragmentD net f o with
    | Except.error e => Except.error e
    | Except.ok (o', d) =>
      match applyFragmentsD net fs o' with
      | Except.error (msg, o'', d') => Except.error (msg, o'', d ++ d')
      | Except.ok (o'', d') => Except.ok (o'', d ++ d')

end

/-- Apply one fragment to a state and a trace sink: the fragment's pushes land
at the end of the sink, in order; on abort the sink likewise holds whatever
was pushed before the panic. -/
def applyFragment (net : Net) (f : Fragment) (o : Options) (di : Trace) :
    Except Abort (Options × Trace) :=
  match applyFragmentD net f o with
  | Except.error (msg, o', d) => Except.error (msg, o', di ++ d)
  | Except.ok (o', d) => Except.ok (o', di ++ d)

/-- The build pass: apply a list of fragments in order to a state and a trace
sink. -/
def applyFragments (net : Net) (fs : List Fragment) (o : Options) (di : Trace) :
    Except Abort (Options × Trace) :=
  match applyFragmentsD net fs o with
  | Except.error (msg, o', d) => Except.error (msg, o', di ++ d)
  | Except.ok (o', d) => Except.ok (o', di ++ d)

/-- A concrete network environment used to instantiate universally quantified
theorems: exactly the two TCP addresses of the spec's example resolve. -/
def net0 : Net :=
  { resolvesTCP := fun s => s = "127.0.0.1:9000" || s = "127.0.0.1:9001",
    resolvesUnix := fun _ => false }

/-- Fidelity of the build pass to the source's sequential threading: applying
an empty fragment list changes nothing. -/
theorem applyFragments_nil (net : Net) (o : Options) (di : Trace) :
    applyFragments net [] o di = Except.ok (o, di) := by
  simp [applyFragments, applyFragmentsD]

/-- Fidelity of the build pass to the source's sequential threading: applying
`f :: fs` applies `f`, then, unless `f` aborted, applies `fs` to the new state
and trace. -/
theorem applyFragments_cons (net : Net) (f : Fragment) (fs : List Fragment)
    (o : Options) (di : Trace) :
    applyFragments net (f :: fs) o di =
      match applyFragment net f o di with
      | Except.error e => Except.error e
      | Except.ok (o', di') => applyFragments net fs o' di' := by
  simp only [applyFragments, applyFragment, applyFragmentsD]
  cases hf : applyFragmentD net f o with
  | error e => rfl
  | ok p =>
    cases p with
    | mk o' d =>
      cases hfs : applyFragmentsD net fs o' with
      | error e =>
        cases e with
        | mk msg p' => simp [hfs, List.append_assoc]
      | ok p' =>
        cases p' with
        | mk o'' d' => simp [hfs, List.append_assoc]

/-- Trace locality: a fragment only appends to the trace sink it is given,
and what it appends does not depend on the entries already there. -/
theorem applyFragment_trace_append (net : Net) (f : Fragment) (o : Options)
    (di : Trace) (o' : Options) (di' : Trace)
    (h : applyFragment net f o di = Except.ok (o', di')) :
    ∃ d, di' = di ++ d ∧ applyFragment net f o [] = Except.ok (o', d) := by
  unfold applyFragment at h ⊢
  cases hD : applyFragmentD net f o with
  | error e => rw [hD] at h; cases h
  | ok p =>
    cases p with
    | mk o'' d =>
      rw [hD] at h
      cases h
      exact ⟨d, rfl, by simp⟩

/-- The per-fragment trace contributions of a fragment sequence: relates a
start state, the sequence, the final state and the list of entry blocks the
fragments contributed, one block per fragment, in application order. -/
inductive Contribs (net : Net) : Options → List Fragment → Options → List (List Entry) → Prop where
  | nil (o : Options) : Contribs net o [] o []
  | cons {f : Fragment} {fs : List Fragment} {o o₁ o₂ : Options} {d : List Entry}
      {ds : List (List Entry)} :
      applyFragment net f o [] = Except.ok (o₁, d) →
      Contribs net o₁ fs o₂ ds →
      Contribs net o (f :: fs) o₂ (d :: ds)

/-- A successful build pass decomposes the trace into the per-fragment
contributions, in application order. -/
theorem applyFragments_contribs (net : Net) (fs : List Fragment) :
    ∀ (o : Options) (di : Trace) (o' : Options) (di' : Trace),
      applyFragments net fs o di = Except.ok (o', di') →
      ∃ ds, Contribs net o fs o' ds ∧ di' = di ++ ds.flatten := by
  induction fs with
  | nil =>
    intro o di o' di' h
    rw [applyFragments_nil] at h
    cases h
    exact ⟨[], Contribs.nil o, by simp⟩
  | cons f fs ih =>
    intro o di o' di' h
    rw [applyFragments_cons] at h
    cases hf : applyFragment net f o di with
    | error e => rw [hf] at h; cases h
    | ok p =>
      cases p with
      | mk o₁ di₁ =>
        rw [hf] at h
        obtain ⟨d, rfl, hf0⟩ := applyFragment_trace_append net f o di o₁ di₁ hf
        obtain ⟨ds, hc, rfl⟩ := ih o₁ (di ++ d) o' di' h
        exact ⟨d :: ds, Contribs.cons hf0 hc, by simp⟩

/-- C3: for every fragment sequence applied without an abort, the trace log
gains exactly the per-fragment contributions in application order, and a
suite contributes exactly one nested sub-sequence entry, labelled with the
suite's identity, at the position the suite occupied; the nested entries are
exactly the trace of the suite's own fragment sequence, so trace nesting
mirrors suite nesting at every depth. -/
theorem trace_order_and_suite_nesting :
    (∀ (net : Net) (fs : List Fragment) (o : Options) (di : Trace)
        (o' : Options) (di' : Trace),
      applyFragments net fs o di = Except.ok (o', di') →
      ∃ ds, Contribs net o fs o' ds ∧ di' = di ++ ds.flatten) ∧
    (∀ (net : Net) (label : String) (opts : List Fragment) (o : Options)
        (di : Trace) (o' : Options) (di' : Trace),
      applyFragment net (Fragment.withSuite label opts) o di = Except.ok (o', di') →
      ∃ sub, di' = di ++ [Entry.nested label sub] ∧
        applyFragments net opts o [] = Except.ok (o', sub)) := by
  constructor
  · exact fun net fs => applyFragments_contribs net fs
  · intro net label opts o di o' di' h
    unfold applyFragment at h
    unfold applyFragmentD at h
    cases hInner : applyFragmentsD net opts o with
    | error e =>
      cases e with
      | mk msg p => rw [hInner] at h; simp at h
    | ok p =>
      cases p with
      | mk o'' sub =>
        rw [hInner] at h
        simp only [Except.ok.injEq, Prod.mk.injEq] at h
        obtain ⟨rfl, rfl⟩ := h
        exact ⟨sub, rfl, by simp [applyFragments, hInner]⟩

/-- Witness for `trace_order_and_suite_nesting` at a concrete sequence
containing a nested suite. -/
theorem trace_order_and_suite_nesting_witness :
    (∃ ds, Contribs net0 ({} : Options)
        [Fragment.withStatsLevel 3, Fragment.withSuite "S" [Fragment.withTag "k" "v"]]
        { statsLevel := 3, svrTags := [("k", "v")], locks := { tags := ["k"] } } ds ∧
      ([Entry.leaf "WithStatsLevel(3)", Entry.nested "S" [Entry.leaf "WithTag(k=v)"]] : Trace) =
        [] ++ ds.flatten) ∧
    (∃ sub, ([Entry.nested "S" [Entry.leaf "WithTag(k=v)"]] : Trace) =
        [] ++ [Entry.nested "S" sub] ∧
      applyFragments net0 [Fragment.withTag "k" "v"] ({} : Options) [] =
        Except.ok ({ svrTags := [("k", "v")], locks := { tags := ["k"] } }, sub)) :=
  ⟨trace_order_and_suite_nesting.1 net0
      [Fragment.withStatsLevel 3, Fragment.withSuite "S" [Fragment.withTag "k" "v"]]
      {} [] _ _ rfl,
   trace_order_and_suite_nesting.2 net0 "S" [Fragment.withTag "k" "v"] {} [] _ _ rfl⟩

/-- C1 counterexample: `WithFailureRetry` with a nil policy completes without
aborting and appends zero trace entries, and `WithMuxConnection` completes
without aborting and appends two (its own and the one pushed by the delegated
`WithTransHandlerFactory`). -/
theorem single_trace_entry_counterexample :
    Except.map (fun p => p.2.length)
        (applyFragment net0 (Fragment.withFailureRetry none) {} []) = Except.ok 0 ∧
    Except.map (fun p => p.2.length)
        (applyFragment net0 (Fragment.withMuxConnection 4) {} []) = Except.ok 2 :=
  ⟨rfl, rfl⟩

/-- The number of trace entries a fragment pushes onto the sink it is handed
when it completes without aborting: one, except that a nil retry policy is a
silent no-op (zero) and `WithMuxConnection` delegates to
`WithTransHandlerFactory`, which pushes an entry of its own (two). -/
def expectedEntryCount : Fragment → Nat
  | .withFailureRetry none => 0
  | .withBackupRequest none => 0
  | .withMuxConnection _ => 2
  | _ => 1

/-- Each fragment's contribution block has the expected number of entries. -/
theorem applyFragmentD_length (net : Net) (f : Fragment) (o : Options)
    (o' : Options) (d : List Entry)
    (h : applyFragmentD net f o = Except.ok (o', d)) :
    d.length = expectedEntryCount f := by
  cases f <;>
    simp only [applyFragmentD, withTransHandlerFactoryF, expectedEntryCount] at h ⊢ <;>
    (repeat' split at h) <;>
    first
      | exact Except.noConfusion h
      | (simp only [Except.ok.injEq, Prod.mk.injEq] at h
         obtain ⟨-, hd⟩ := h
         simp [← hd])

/-- C1 (amended): a fragment application that completes without aborting
appends exactly one descriptive trace entry, except that `WithFailureRetry` /
`WithBackupRequest` with a nil policy append zero entries and
`WithMuxConnection` appends exactly two. -/
theorem fragment_trace_entry_count (net : Net) (f : Fragment) (o : Options)
    (di : Trace) (o' : Options) (di' : Trace)
    (h : applyFragment net f o di = Except.ok (o', di')) :
    di'.length = di.length + expectedEntryCount f := by
  unfold applyFragment at h
  cases hD : applyFragmentD net f o with
  | error e => rw [hD] at h; cases h
  | ok p =>
    cases p with
    | mk o'' d =>
      rw [hD] at h
      cases h
      have hlen := applyFragmentD_length net f o _ _ hD
      simp [hlen]

/-- Witness for `fragment_trace_entry_count` at a concrete application. -/
theorem fragment_trace_entry_count_witness :
    ([Entry.leaf "WithDestService(svc)"] : Trace).length =
      ([] : Trace).length + expectedEntryCount (Fragment.withDestService "svc") :=
  fragment_trace_entry_count net0 (Fragment.withDestService "svc") {} []
    { onceUsed := true, svrServiceName := "svc" }
    [Entry.leaf "WithDestService(svc)"] rfl


/-- C2: setting a Failure-type retry policy when a Backup-type policy is
already present aborts with a message naming the `BackupPolicy` variant, and
conversely; setting either one on a state with no retry policy succeeds and
leaves the policy tagged with the matching variant type and the enabled flag
set. -/
theorem retry_policy_mutual_exclusion :
    (∀ (net : Net) (o : Options) (di : Trace) (p : FailurePolicy) (rp : RetryPolicy),
      o.retryPolicy = some rp → rp.backupPolicy ≠ none →
      applyFragment net (Fragment.withFailureRetry (some p)) o di =
        Except.error
          ("BackupPolicy has been setup, cannot support Failure Retry at same time",
           { o with retryPolicy := some rp },
           di ++ [Entry.leaf ("WithFailureRetry(" ++ toString p ++ ")")]) ∧
      "BackupPolicy has been setup, cannot support Failure Retry at same time" =
        "BackupPolicy" ++ " has been setup, cannot support Failure Retry at same time") ∧
    (∀ (net : Net) (o : Options) (di : Trace) (p : BackupPolicy) (rp : RetryPolicy),
      o.retryPolicy = some rp → rp.failurePolicy ≠ none →
      applyFragment net (Fragment.withBackupRequest (some p)) o di =
        Except.error
          ("Failure Retry has been setup, cannot support Backup Request at same time",
           { o with retryPolicy := some rp },
           di ++ [Entry.leaf ("WithBackupRequest(" ++ toString p ++ ")")]) ∧
      "Failure Retry has been setup, cannot support Backup Request at same time" =
        "Failure Retry" ++ " has been setup, cannot support Backup Request at same time") ∧
    (∀ (net : Net) (o : Options) (di : Trace) (p : FailurePolicy),
      o.retryPolicy = none →
      applyFragment net (Fragment.withFailureRetry (some p)) o di =
        Except.ok
          ({ o with retryPolicy := some
                      ({ failurePolicy := some p, backupPolicy := none,
                         enable := true, type := RetryType.failure } : RetryPolicy) },
           di ++ [Entry.leaf ("WithFailureRetry(" ++ toString p ++ ")")])) ∧
    (∀ (net : Net) (o : Options) (di : Trace) (p : BackupPolicy),
      o.retryPolicy = none →
      applyFragment net (Fragment.withBackupRequest (some p)) o di =
        Except.ok
          ({ o with retryPolicy := some
                      ({ failurePolicy := none, backupPolicy := some p,
                         enable := true, type := RetryType.backup } : RetryPolicy) },
           di ++ [Entry.leaf ("WithBackupRequest(" ++ toString p ++ ")")])) := by
  refine ⟨?_, ?_, ?_, ?_⟩
  · intro net o di p rp h1 h2
    exact ⟨by simp [applyFragment, applyFragmentD, h1, h2], rfl⟩
  · intro net o di p rp h1 h2
    exact ⟨by simp [applyFragment, applyFragmentD, h1, h2], rfl⟩
  · intro net o di p h1
    simp [applyFragment, applyFragmentD, h1]
  · intro net o di p h1
    simp [applyFragment, applyFragmentD, h1]

/-- Witness for `retry_policy_mutual_exclusion` at concrete states. -/
theorem retry_policy_mutual_exclusion_witness :
    (applyFragment net0 (Fragment.withFailureRetry (some 3))
        ({ retryPolicy := some ({ backupPolicy := some 7 } : RetryPolicy) } : Options) [] =
      Except.error
        ("BackupPolicy has been setup, cannot support Failure Retry at same time",
         ({ retryPolicy := some ({ backupPolicy := some 7 } : RetryPolicy) } : Options),
         [] ++ [Entry.leaf ("WithFailureRetry(" ++ toString (3 : FailurePolicy) ++ ")")]) ∧
      "BackupPolicy has been setup, cannot support Failure Retry at same time" =
        "BackupPolicy" ++ " has been setup, cannot support Failure Retry at same time") ∧
    (applyFragment net0 (Fragment.withBackupRequest (some 7))
        ({ retryPolicy := some ({ failurePolicy := some 3 } : RetryPolicy) } : Options) [] =
      Except.error
        ("Failure Retry has been setup, cannot support Backup Request at same time",
         ({ retryPolicy := some ({ failurePolicy := some 3 } : RetryPolicy) } : Options),
         [] ++ [Entry.leaf ("WithBackupRequest(" ++ toString (7 : BackupPolicy) ++ ")")]) ∧
      "Failure Retry has been setup, cannot support Backup Request at same time" =
        "Failure Retry" ++ " has been setup, cannot support Backup Request at same time") ∧
    applyFragment net0 (Fragment.withFailureRetry (some 3)) ({} : Options) [] =
      Except.ok
        (({ retryPolicy := some
                ({ failurePolicy := some 3, backupPolicy := none,
                   enable := true, type := RetryType.failure } : RetryPolicy) } : Options),
         [] ++ [Entry.leaf ("WithFailureRetry(" ++ toString (3 : FailurePolicy) ++ ")")]) ∧
    applyFragment net0 (Fragment.withBackupRequest (some 7)) ({} : Options) [] =
      Except.ok
        (({ retryPolicy := some
                ({ failurePolicy := none, backupPolicy := some 7,
                   enable := true, type := RetryType.backup } : RetryPolicy) } : Options),
         [] ++ [Entry.leaf ("WithBackupRequest(" ++ toString (7 : BackupPolicy) ++ ")")]) :=
  ⟨retry_policy_mutual_exclusion.1 net0
      ({ retryPolicy := some ({ backupPolicy := some 7 } : RetryPolicy) } : Options) [] 3
      ({ backupPolicy := some 7 } : RetryPolicy) rfl (by simp),
   retry_policy_mutual_exclusion.2.1 net0
      ({ retryPolicy := some ({ failurePolicy := some 3 } : RetryPolicy) } : Options) [] 7
      ({ failurePolicy := some 3 } : RetryPolicy) rfl (by simp),
   retry_policy_mutual_exclusion.2.2.1 net0 {} [] 3 rfl,
   retry_policy_mutual_exclusion.2.2.2 net0 {} [] 7 rfl⟩

/-- An address list containing an entry that resolves neither as TCP nor as a
unix socket makes the resolution loop of `WithHostPorts` abort. -/
theorem resolveIns_error (net : Net) : ∀ (hps : List String) (hp : String),
    hp ∈ hps → net.resolvesTCP hp = false → net.resolvesUnix hp = false →
    ∃ msg, resolveIns net hps = Except.error msg := by
  intro hps
  induction hps with
  | nil => intro hp h; cases h
  | cons a rest ih =>
    intro hp hmem htcp hunix
    cases hta : net.resolvesTCP a with
    | true =>
      have hrest : hp ∈ rest := by
        cases hmem with
        | head => rw [htcp] at hta; cases hta
        | tail _ h => exact h
      obtain ⟨msg, hmsg⟩ := ih hp hrest htcp hunix
      exact ⟨msg, by simp [resolveIns, Except.map, hta, hmsg]⟩
    | false =>
      cases hua : net.resolvesUnix a with
      | true =>
        have hrest : hp ∈ rest := by
          cases hmem with
          | head => rw [hunix] at hua; cases hua
          | tail _ h => exact h
        obtain ⟨msg, hmsg⟩ := ih hp hrest htcp hunix
        exact ⟨msg, by simp [resolveIns, Except.map, hta, hua, hmsg]⟩
      | false =>
        exact ⟨"WithHostPorts: invalid '" ++ a ++ "'", by simp [resolveIns, hta, hua]⟩

/-- C4: `WithHostPorts` aborts when some entry resolves neither as a TCP
address nor as a unix-socket path, leaving the state — in particular its
resolver and targets fields — exactly as it was (only the trace gained the
fragment's entry, which the source pushes before validating); and
`WithHostPorts` with zero arguments aborts likewise. -/
theorem with_host_ports_abort :
    (∀ (net : Net) (hps : List String) (o : Options) (di : Trace) (hp : String),
      hp ∈ hps → net.resolvesTCP hp = false → net.resolvesUnix hp = false →
      ∃ msg, applyFragment net (Fragment.withHostPorts hps) o di =
        Except.error (msg, o,
          di ++ [Entry.leaf ("WithHostPorts([" ++ String.intercalate " " hps ++ "])")])) ∧
    (∀ (net : Net) (o : Options) (di : Trace),
      applyFragment net (Fragment.withHostPorts []) o di =
        Except.error ("WithHostPorts() requires at least one argument", o,
          di ++ [Entry.leaf "WithHostPorts([])"])) := by
  constructor
  · intro net hps o di hp hmem htcp hunix
    obtain ⟨msg, hmsg⟩ := resolveIns_error net hps hp hmem htcp hunix
    exact ⟨msg, by simp [applyFragment, applyFragmentD, hmsg]⟩
  · intro net o di
    rfl

/-- Witness for `with_host_ports_abort` at the example inputs of the spec. -/
theorem with_host_ports_abort_witness :
    (∃ msg, applyFragment net0
        (Fragment.withHostPorts ["127.0.0.1:9000", "not-an-address"]) {} [] =
      Except.error (msg, {},
        [] ++ [Entry.leaf "WithHostPorts([127.0.0.1:9000 not-an-address])"])) ∧
    applyFragment net0 (Fragment.withHostPorts []) {} [] =
      Except.error ("WithHostPorts() requires at least one argument", {},
        [] ++ [Entry.leaf "WithHostPorts([])"]) :=
  ⟨with_host_ports_abort.1 net0 ["127.0.0.1:9000", "not-an-address"] {} []
      "not-an-address" (by simp) rfl rfl,
   with_host_ports_abort.2 net0 {} []⟩

/-- An address list whose every entry resolves makes the resolution loop of
`WithHostPorts` return one instance per entry, in order. -/
theorem resolveIns_ok (net : Net) : ∀ (hps : List String),
    (∀ hp ∈ hps, net.resolvesTCP hp = true ∨ net.resolvesUnix hp = true) →
    resolveIns net hps = Except.ok (hps.map fun hp =>
      { network := if net.resolvesTCP hp then "tcp" else "unix",
        address := hp, weight := defaultWeight }) := by
  intro hps
  induction hps with
  | nil => intro _; rfl
  | cons a rest ih =>
    intro hall
    have hrest : ∀ hp ∈ rest, net.resolvesTCP hp = true ∨ net.resolvesUnix hp = true :=
      fun hp h => hall hp (List.mem_cons_of_mem a h)
    cases hta : net.resolvesTCP a with
    | true => simp [resolveIns, Except.map, hta, ih hrest]
    | false =>
      cases hua : net.resolvesUnix a with
      | true => simp [resolveIns, Except.map, hta, hua, ih hrest]
      | false =>
        have ha := hall a (List.mem_cons_self a rest)
        rw [hta, hua] at ha
        simp at ha

/-- C5: `WithHostPorts` on a non-empty list of resolvable addresses installs a
resolver whose every lookup returns the same fixed result — one instance per
input address, marked cacheable, under the constant cache key `"fixed"`,
independent of the lookup key argument. -/
theorem with_host_ports_success (net : Net) (hps : List String) (o : Options)
    (di : Trace) (hne : hps ≠ [])
    (hall : ∀ hp ∈ hps, net.resolvesTCP hp = true ∨ net.resolvesUnix hp = true) :
    ∃ (o' : Options) (r : ResolverModel),
      applyFragment net (Fragment.withHostPorts hps) o di =
        Except.ok (o',
          di ++ [Entry.leaf ("WithHostPorts([" ++ String.intercalate " " hps ++ "])")]) ∧
      o'.resolver = some r ∧
      (∀ key key' : String, r.resolveFunc key = r.resolveFunc key') ∧
      (∀ key : String, r.resolveFunc key =
        { cacheable := true, cacheKey := "fixed",
          instances := hps.map fun hp =>
            { network := if net.resolvesTCP hp then "tcp" else "unix",
              address := hp, weight := defaultWeight } }) ∧
      (∀ key : String, (r.resolveFunc key).instances.length = hps.length) := by
  have hres := resolveIns_ok net hps hall
  have hlen : ¬((hps.map fun hp =>
      ({ network := if net.resolvesTCP hp then "tcp" else "unix",
         address := hp, weight := defaultWeight } : Instance)).length = 0) := by
    simpa using hne
  refine ⟨{ o with targets := String.intercalate "," hps,
                   resolver := some
                     ({ resolveFunc := fun _key =>
                          { cacheable := true, cacheKey := "fixed",
                            instances := hps.map fun hp =>
                              { network := if net.resolvesTCP hp then "tcp" else "unix",
                                address := hp, weight := defaultWeight } },
                        name := String.intercalate "," hps } : ResolverModel) },
          { resolveFunc := fun _key =>
              { cacheable := true, cacheKey := "fixed",
                instances := hps.map fun hp =>
                  { network := if net.resolvesTCP hp then "tcp" else "unix",
                    address := hp, weight := defaultWeight } },
            name := String.intercalate "," hps },
          ?_, rfl, fun key key' => rfl, fun key => rfl, fun key => by simp⟩
  simp [applyFragment, applyFragmentD, hres, hlen, hne]

/-- Witness for `with_host_ports_success` at the example inputs of the spec. -/
theorem with_host_ports_success_witness :
    ∃ (o' : Options) (r : ResolverModel),
      applyFragment net0
          (Fragment.withHostPorts ["127.0.0.1:9000", "127.0.0.1:9001"]) {} [] =
        Except.ok (o',
          [] ++ [Entry.leaf "WithHostPorts([127.0.0.1:9000 127.0.0.1:9001])"]) ∧
      o'.resolver = some r ∧
      (∀ key key' : String, r.resolveFunc key = r.resolveFunc key') ∧
      (∀ key : String, r.resolveFunc key =
        { cacheable := true, cacheKey := "fixed",
          instances := ["127.0.0.1:9000", "127.0.0.1:9001"].map fun hp =>
            { network := if net0.resolvesTCP hp then "tcp" else "unix",
              address := hp, weight := defaultWeight } }) ∧
      (∀ key : String, (r.resolveFunc key).instances.length =
        (["127.0.0.1:9000", "127.0.0.1:9001"] : List String).length) :=
  with_host_ports_success net0 ["127.0.0.1:9000", "127.0.0.1:9001"] {} []
    (by simp) (by decide)


/-- C6: `WithTransportProtocol` with an identifier naming no known protocol
aborts without mutating any field of the state or the trace; with the
grpc-style protocol it sets the transport protocol and installs the non-nil
connection-pool and handler-factory collaborators; with any other known
protocol it sets the transport protocol only. -/
theorem with_transport_protocol_behavior :
    (∀ (net : Net) (tp : Protocol) (o : Options) (di : Trace),
      tp.name = Protocol.unknownName →
      applyFragment net (Fragment.withTransportProtocol tp) o di =
        Except.error ("WithTransportProtocol: invalid '" ++ tp.name ++ "'", o, di)) ∧
    (∀ (net : Net) (o : Options) (di : Trace),
      applyFragment net (Fragment.withTransportProtocol Protocol.grpc) o di =
        Except.ok ({ o with
            remoteOpt := { o.remoteOpt with
              connPool := some ConnPool.nphttp2Pool,
              cliHandlerFactory := some HandlerFactory.nphttp2CliFactory },
            configs := { o.configs with transportProtocol := Protocol.grpc } },
          di ++ [Entry.leaf ("WithTransportProtocol(" ++ Protocol.name Protocol.grpc ++ ")")])) ∧
    (∀ (net : Net) (tp : Protocol) (o : Options) (di : Trace),
      tp.name ≠ Protocol.unknownName → tp ≠ Protocol.grpc →
      applyFragment net (Fragment.withTransportProtocol tp) o di =
        Except.ok ({ o with configs := { o.configs with transportProtocol := tp } },
          di ++ [Entry.leaf ("WithTransportProtocol(" ++ tp.name ++ ")")])) := by
  refine ⟨?_, ?_, ?_⟩
  · intro net tp o di h
    simp [applyFragment, applyFragmentD, h]
  · intro net o di
    rfl
  · intro net tp o di h1 h2
    simp [applyFragment, applyFragmentD, h1, h2]

/-- Witness for `with_transport_protocol_behavior` at concrete protocol
identifiers (`3` names no protocol; `Framed` is known and not grpc). -/
theorem with_transport_protocol_behavior_witness :
    applyFragment net0 (Fragment.withTransportProtocol 3) {} [] =
      Except.error ("WithTransportProtocol: invalid '" ++ Protocol.name 3 ++ "'", {}, []) ∧
    applyFragment net0 (Fragment.withTransportProtocol Protocol.framed) {} [] =
      Except.ok ({ configs := { transportProtocol := Protocol.framed } },
        [] ++ [Entry.leaf ("WithTransportProtocol(" ++ Protocol.name Protocol.framed ++ ")")]) :=
  ⟨with_transport_protocol_behavior.1 net0 3 {} [] rfl,
   with_transport_protocol_behavior.2.2 net0 Protocol.framed {} []
     (by decide) (by decide)⟩

/-- C7: a second application of `WithDestService`, after any successful first
application, aborts leaving the state as the first application left it — in
particular the service name remains the value the first application set. -/
theorem dest_service_once (net : Net) (o : Options) (di : Trace)
    (svr svr' : String) (o₁ : Options) (di₁ : Trace)
    (h : applyFragment net (Fragment.withDestService svr) o di = Except.ok (o₁, di₁)) :
    o₁.svrServiceName = svr ∧
    applyFragment net (Fragment.withDestService svr') o₁ di₁ =
      Except.error (oncePanicMsg, o₁, di₁) := by
  by_cases ho : o.onceUsed = true
  · simp [applyFragment, applyFragmentD, ho] at h
  · simp only [Bool.not_eq_true] at ho
    simp [applyFragment, applyFragmentD, ho] at h
    obtain ⟨rfl, rfl⟩ := h
    exact ⟨rfl, by simp [applyFragment, applyFragmentD]⟩

/-- Witness for `dest_service_once` at a concrete first application. -/
theorem dest_service_once_witness :
    Options.svrServiceName
      { onceUsed := true, svrServiceName := "svc" } = "svc" ∧
    applyFragment net0 (Fragment.withDestService "other")
        ({ onceUsed := true, svrServiceName := "svc" } : Options)
        [Entry.leaf "WithDestService(svc)"] =
      Except.error (oncePanicMsg,
        ({ onceUsed := true, svrServiceName := "svc" } : Options),
        [Entry.leaf "WithDestService(svc)"]) :=
  dest_service_once net0 {} [] "svc" "other"
    { onceUsed := true, svrServiceName := "svc" }
    [Entry.leaf "WithDestService(svc)"] rfl

/-- C8: `WithRPCTimeout` sets the timeout value and the corresponding lock
bit; a second application overwrites the value while the lock set is
unchanged (the bit stays set — setting it is idempotent). -/
theorem rpc_timeout_lock (net : Net) (o : Options) (di : Trace) (d₁ d₂ : Int)
    (o₁ : Options) (di₁ : Trace) (o₂ : Options) (di₂ : Trace)
    (h₁ : applyFragment net (Fragment.withRPCTimeout d₁) o di = Except.ok (o₁, di₁))
    (h₂ : applyFragment net (Fragment.withRPCTimeout d₂) o₁ di₁ = Except.ok (o₂, di₂)) :
    o₁.configs.rpcTimeout = d₁ ∧
    o₁.locks.bits = o.locks.bits ||| bitRPCTimeout ∧
    o₁.locks.bits.testBit 0 = true ∧
    o₂.configs.rpcTimeout = d₂ ∧
    o₂.locks.bits = o₁.locks.bits ∧
    o₂.locks.bits.testBit 0 = true := by
  simp [applyFragment, applyFragmentD] at h₁ h₂
  obtain ⟨rfl, rfl⟩ := h₁
  obtain ⟨rfl, rfl⟩ := h₂
  refine ⟨rfl, rfl, ?_, rfl, ?_, ?_⟩
  · simp [bitRPCTimeout, Nat.testBit_or]
  · show (o.locks.bits ||| bitRPCTimeout) ||| bitRPCTimeout = o.locks.bits ||| bitRPCTimeout
    rw [Nat.or_assoc, Nat.or_self]
  · simp [bitRPCTimeout, Nat.testBit_or]

/-- Witness for `rpc_timeout_lock` at two concrete timeout values. -/
theorem rpc_timeout_lock_witness :
    RPCConfig.rpcTimeout
      (Options.configs { configs := { rpcTimeout := 5000000 }, locks := { bits := 1 } })
        = 5000000 ∧
    Locks.bits (Options.locks
        ({ configs := { rpcTimeout := 5000000 }, locks := { bits := 1 } } : Options)) =
      Locks.bits (Options.locks ({} : Options)) ||| bitRPCTimeout ∧
    Nat.testBit 1 0 = true ∧
    RPCConfig.rpcTimeout
      (Options.configs { configs := { rpcTimeout := 7000000 }, locks := { bits := 1 } })
        = 7000000 ∧
    Locks.bits (Options.locks
        ({ configs := { rpcTimeout := 7000000 }, locks := { bits := 1 } } : Options)) =
      Locks.bits (Options.locks
        ({ configs := { rpcTimeout := 5000000 }, locks := { bits := 1 } } : Options)) ∧
    Nat.testBit 1 0 = true :=
  rpc_timeout_lock net0 {} [] 5000000 7000000
    { configs := { rpcTimeout := 5000000 }, locks := { bits := 1 } }
    [Entry.leaf ("WithRPCTimeout(" ++ toString ((5000000 : Int).tdiv 1000000) ++ "ms)")]
    { configs := { rpcTimeout := 7000000 }, locks := { bits := 1 } }
    [Entry.leaf ("WithRPCTimeout(" ++ toString ((5000000 : Int).tdiv 1000000) ++ "ms)"),
     Entry.leaf ("WithRPCTimeout(" ++ toString ((7000000 : Int).tdiv 1000000) ++ "ms)")]
    rfl rfl

/-- C9: `WithLongConnection` installs the pool configuration only when none
is present; when one is already present a later application leaves it — and
the whole state — unchanged, and does not abort. -/
theorem with_long_connection_first_wins (net : Net) (o : Options)
    (di : Trace) (cfg : IdleConfig) :
    (o.poolCfg = none →
      applyFragment net (Fragment.withLongConnection cfg) o di =
        Except.ok ({ o with poolCfg := checkPoolConfig cfg },
          di ++ [Entry.leaf ("WithLongConnection(" ++ toString cfg ++ ")")])) ∧
    (∀ pc, o.poolCfg = some pc →
      applyFragment net (Fragment.withLongConnection cfg) o di =
        Except.ok (o,
          di ++ [Entry.leaf ("WithLongConnection(" ++ toString cfg ++ ")")])) := by
  constructor
  · intro h
    simp [applyFragment, applyFragmentD, h]
  · intro pc h
    simp [applyFragment, applyFragmentD, h]

/-- Witness for `with_long_connection_first_wins`: a first call installs the
pool configuration, a second call with a different config leaves it. -/
theorem with_long_connection_first_wins_witness :
    applyFragment net0 (Fragment.withLongConnection 4) {} [] =
      Except.ok ({ poolCfg := checkPoolConfig 4 },
        [] ++ [Entry.leaf ("WithLongConnection(" ++ toString (4 : IdleConfig) ++ ")")]) ∧
    applyFragment net0 (Fragment.withLongConnection 9) ({ poolCfg := some 4 } : Options) [] =
      Except.ok (({ poolCfg := some 4 } : Options),
        [] ++ [Entry.leaf ("WithLongConnection(" ++ toString (9 : IdleConfig) ++ ")")]) :=
  ⟨(with_long_connection_first_wins net0 {} [] 4).1 rfl,
   (with_long_connection_first_wins net0 ({ poolCfg := some 4 } : Options) [] 9).2 4 rfl⟩

/-- C10: `WithFailureRetry` and `WithBackupRequest` with a nil policy pointer
are silent no-ops: for every state and trace they return before pushing any
trace entry and before touching the retry-policy field, leaving state and
trace exactly unchanged. -/
theorem nil_retry_policy_noop (net : Net) (o : Options) (di : Trace) :
    applyFragment net (Fragment.withFailureRetry none) o di = Except.ok (o, di) ∧
    applyFragment net (Fragment.withBackupRequest none) o di = Except.ok (o, di) := by
  constructor <;> simp [applyFragment, applyFragmentD]

end Kitex
